import Mathlib

/-!
Shallow embedding of `src/medo.py` (MeDo signup automation bot).

The embedding models, from the source:
  - `AccountResult` (the per-attempt outcome dataclass);
  - `generate_password` (utility function, lines 243-248);
  - `AutomationEngine._create_temp_email` (the three email-extraction
    strategies, lines 470-545);
  - `AutomationEngine.run` (the five-step workflow with its
    guaranteed-cleanup `finally` block, lines 823-894), with the
    browser/session side effects reified as an event trace;
  - `BrowserManager.create_driver` session registration order (lines 308-351);
  - `AutomationOrchestrator._run_single_account` / `_run_with_retry`
    (lines 1024-1067), with attempt invocations and sleeps as a trace;
  - `AccountManager.save_account` and the orchestrator's
    `update_progress` store-persistence logic (lines 916-925, 1135-1154).

Outcomes of browser and I/O interactions are oracle parameters
(`Except String Unit`, `Option String`, `Bool`): the control flow around
them is translated faithfully from the source.
-/

namespace Medo

/-- `AccountResult` dataclass (medo.py lines 217-226).  `duration` is kept
as a `Nat` placeholder; no claim depends on its value. -/
structure AccountResult where
  success : Bool
  email : Option String := none
  password : Option String := none
  error : Option String := none
  thread_id : Nat := 0
  account_index : Nat := 0
  duration : Nat := 0
deriving DecidableEq, Repr

/-! ### Password generation (medo.py lines 243-248) -/

/-- `string.ascii_letters`: lowercase then uppercase. -/
def asciiLetters : List Char :=
  "abcdefghijklmnopqrstuvwxyzABCDEFGHIJKLMNOPQRSTUVWXYZ".data

/-- `string.digits`. -/
def digitChars : List Char := "0123456789".data

/-- The hardcoded symbol set appended when `use_special_chars` is true. -/
def specialChars : List Char := "!@#$%^&*".data

/-- `chars = string.ascii_letters + string.digits` plus the symbol set
when `use_special_chars` holds. -/
def passwordAlphabet (use_special_chars : Bool) : List Char :=
  asciiLetters ++ digitChars ++ (if use_special_chars then specialChars else [])

/-- `random.SystemRandom().choice(chars)`: the randomness is an oracle
`Nat`, reduced modulo the alphabet size. -/
def sysRandomChoice (chars : List Char) (n : Nat) : Char :=
  chars.getD (n % chars.length) 'a'

/-- `generate_password(length=12, use_special_chars=True)`: one character
chosen per position.  `pick` is the randomness oracle (one draw per
position). -/
def generate_password (pick : Nat → Nat) (length : Nat := 12)
    (use_special_chars : Bool := true) : String :=
  String.mk ((List.range length).map
    (fun i => sysRandomChoice (passwordAlphabet use_special_chars) (pick i)))

theorem passwordAlphabet_pos (u : Bool) : 0 < (passwordAlphabet u).length := by
  cases u <;> decide

theorem sysRandomChoice_mem (chars : List Char) (n : Nat) (h : 0 < chars.length) :
    sysRandomChoice chars n ∈ chars := by
  unfold sysRandomChoice
  have hlt : n % chars.length < chars.length := Nat.mod_lt _ h
  rw [List.getD_eq_getElem _ _ hlt]
  exact List.getElem_mem hlt

theorem generate_password_data (pick : Nat → Nat) (length : Nat) (u : Bool) :
    (generate_password pick length u).data =
      (List.range length).map
        (fun i => sysRandomChoice (passwordAlphabet u) (pick i)) := rfl

theorem generate_password_length (pick : Nat → Nat) (length : Nat) (u : Bool) :
    (generate_password pick length u).length = length := by
  show (generate_password pick length u).data.length = length
  rw [generate_password_data, List.length_map, List.length_range]

theorem generate_password_ne_empty (pick : Nat → Nat) :
    generate_password pick ≠ "" := by
  intro h
  have := congrArg String.length h
  rw [generate_password_length] at this
  simp at this

/-- Claim C7: every password produced by `generate_password` has exactly the
configured length (default 12), every character is drawn from ASCII
letters, digits and the configured symbol set, and with
`use_special_chars = false` no symbol character appears. -/
theorem medo_C7 (pick : Nat → Nat) (length : Nat) (u : Bool) :
    (generate_password pick length u).length = length
    ∧ (∀ c ∈ (generate_password pick length u).data, c ∈ passwordAlphabet u)
    ∧ (u = false → ∀ c ∈ (generate_password pick length u).data,
        c ∉ specialChars)
    ∧ (generate_password pick).length = 12 := by
  refine ⟨generate_password_length pick length u, ?_, ?_, generate_password_length pick 12 true⟩
  · intro c hc
    rw [generate_password_data] at hc
    obtain ⟨i, _, rfl⟩ := List.mem_map.mp hc
    exact sysRandomChoice_mem _ _ (passwordAlphabet_pos u)
  · rintro rfl c hc
    rw [generate_password_data] at hc
    obtain ⟨i, _, rfl⟩ := List.mem_map.mp hc
    have hmem := sysRandomChoice_mem (passwordAlphabet false) (pick i)
      (passwordAlphabet_pos false)
    intro hsp
    have : ∀ x ∈ passwordAlphabet false, x ∉ specialChars := by decide
    exact this _ hmem hsp

theorem medo_C7_witness :
    (generate_password (fun _ => 0)).length = 12
    ∧ ('a' ∈ (generate_password (fun _ => 0) 12 false).data → 'a' ∈ passwordAlphabet false) :=
  ⟨(medo_C7 (fun _ => 0) 12 true).2.2.2,
   fun h => (medo_C7 (fun _ => 0) 12 false).2.1 'a' h⟩

/-! ### Temp-email provisioning (medo.py lines 470-545)

`_create_temp_email` accumulates a local variable `email`
(`Optional[str]`, initially `None`) through three extraction strategies;
a later strategy runs only under the guard `if not email:` (Python
truthiness: `None` and `""` are falsy).  The oracle records what each
strategy would deliver:

  - `inputField`: method 1 — the value re-read from the email input field
    after the waits succeed (`none` = an exception/timeout, leaving
    `email` unchanged);
  - `clipboardCall`: method 2 — the string returned by the clipboard read
    (`none` = an exception anywhere in the method, leaving `email`
    unchanged); a returned value is assigned to `email` unconditionally;
  - `pageTextMatch`: method 3 — the regex match over the page body text
    (`none` = no match or an exception).
-/

/-- Outcomes of the three extraction strategies of `_create_temp_email`. -/
structure ExtractionMethods where
  inputField : Option String
  clipboardCall : Option String
  pageTextMatch : Option String
deriving DecidableEq, Repr

/-- The diagnostic context gathered on the failure path of
`_create_temp_email` (current URL, page title, raw input value, body
preview). -/
structure TempMailDiag where
  url : String
  title : String
  inputValue : String
  bodyPreview : String
deriving DecidableEq, Repr

/-- Python truthiness of an `Optional[str]`. -/
def pyTruthy : Option String → Bool
  | none => false
  | some s => s != ""

/-- The accumulated `email` variable after the two guarded fallback
strategies have run: method 2 runs only when method 1 left a falsy value,
method 3 only when the value is still falsy after method 2. -/
def emailAfterMethods (m : ExtractionMethods) : Option String :=
  let email2 := if pyTruthy m.inputField then m.inputField else
    match m.clipboardCall with
    | some v => some v
    | none => m.inputField
  if pyTruthy email2 then email2 else
    match m.pageTextMatch with
    | some v => some v
    | none => email2

/-- `email.split("@")[0]`: the part of the string before the first `@`
(the whole string when no `@` occurs). -/
def emailLocalPart (e : String) : String :=
  String.mk (e.data.takeWhile (fun c => c != '@'))

/-- The final check of `_create_temp_email`:
`if not email or "@" not in email: raise`, else
`return email, email.split("@")[0]`. -/
def finishEmail (d : TempMailDiag) :
    Option String → Except (String × TempMailDiag) (String × String)
  | some e =>
    if e != "" && e.data.contains '@' then
      Except.ok (e, emailLocalPart e)
    else
      Except.error ("Could not retrieve email address", d)
  | none => Except.error ("Could not retrieve email address", d)

/-- `_create_temp_email` (medo.py lines 470-545): the three strategies in
order, each later one guarded by `if not email:`; success requires the
final value to be truthy and to contain `@`, returning
`(email, email.split("@")[0])`; otherwise the diagnostic context is
gathered and the provisioning error is raised. -/
def create_temp_email (m : ExtractionMethods) (d : TempMailDiag) :
    Except (String × TempMailDiag) (String × String) :=
  finishEmail d (emailAfterMethods m)

theorem create_temp_email_ok (m : ExtractionMethods) (d : TempMailDiag)
    (e u : String) (h : create_temp_email m d = Except.ok (e, u)) :
    e.data.contains '@' = true ∧ e ≠ "" ∧ u = emailLocalPart e := by
  unfold create_temp_email at h
  rcases h3 : emailAfterMethods m with _ | x <;> rw [h3] at h <;>
    simp only [finishEmail] at h
  · exact absurd h (by simp)
  · by_cases hx : (x != "" && x.data.contains '@') = true
    · rw [if_pos hx] at h
      obtain ⟨hx1, hx2⟩ := Bool.and_eq_true_iff.mp hx
      obtain ⟨hex, heu⟩ : x = e ∧ emailLocalPart x = u := by
        have := Except.ok.inj h
        exact ⟨congrArg Prod.fst this, congrArg Prod.snd this⟩
      subst hex
      exact ⟨hx2, by simpa using hx1, heu.symm⟩
    · rw [if_neg hx] at h
      exact absurd h (by simp)

theorem create_temp_email_error (m : ExtractionMethods) (d : TempMailDiag)
    (msg : String) (d' : TempMailDiag)
    (h : create_temp_email m d = Except.error (msg, d')) :
    msg = "Could not retrieve email address" ∧ d' = d := by
  unfold create_temp_email at h
  rcases h3 : emailAfterMethods m with _ | x <;> rw [h3] at h <;>
    simp only [finishEmail] at h
  · have := Except.error.inj h
    exact ⟨(congrArg Prod.fst this).symm, (congrArg Prod.snd this).symm⟩
  · by_cases hx : (x != "" && x.data.contains '@') = true
    · rw [if_pos hx] at h
      exact absurd h (by simp)
    · rw [if_neg hx] at h
      have := Except.error.inj h
      exact ⟨(congrArg Prod.fst this).symm, (congrArg Prod.snd this).symm⟩

theorem emailAfterMethods_truthy1 (m : ExtractionMethods)
    (h : pyTruthy m.inputField = true) : emailAfterMethods m = m.inputField := by
  simp [emailAfterMethods, h]

theorem emailAfterMethods_clipboard (m : ExtractionMethods) (v : String)
    (h1 : pyTruthy m.inputField = false) (h2 : m.clipboardCall = some v)
    (h3 : v ≠ "") : emailAfterMethods m = some v := by
  have hv : pyTruthy (some v) = true := by simp [pyTruthy, h3]
  simp [emailAfterMethods, h1, h2, hv]

theorem emailAfterMethods_pageText (m : ExtractionMethods) (t : String)
    (h1 : pyTruthy m.inputField = false) (h2 : m.clipboardCall = none)
    (h3 : m.pageTextMatch = some t) : emailAfterMethods m = some t := by
  simp [emailAfterMethods, h1, h2, h3]

/-- Claim C3 (counterexample): the claim asserts that when an earlier
strategy yields a non-empty value not containing `@`, the later
strategies are still attempted, and that the step fails only when all
three strategies fail to yield an `@`-containing value.  In the code the
inter-strategy guard is Python truthiness (`if not email:`), not
`@`-containment: here the clipboard strategy yields `"hello"` (truthy,
no `@`), so the page-text strategy — which would yield the
`@`-containing `"x@y.zz"` — is never attempted and the step fails. -/
theorem medo_C3_counterexample :
    (ExtractionMethods.mk none (some "hello") (some "x@y.zz")).pageTextMatch
      = some "x@y.zz"
    ∧ ("x@y.zz").data.contains '@' = true
    ∧ create_temp_email (ExtractionMethods.mk none (some "hello") (some "x@y.zz"))
        (TempMailDiag.mk "u" "t" "i" "b")
      = Except.error ("Could not retrieve email address", TempMailDiag.mk "u" "t" "i" "b") :=
  ⟨rfl, rfl, rfl⟩

/-- Claim C3 (amended): the three extraction strategies are attempted in
order, but each later strategy is attempted only while the accumulated
value is falsy (absent or empty) — a non-empty `@`-less value from an
earlier strategy suppresses the later ones.  The step succeeds exactly
when the resulting value is non-empty and contains `@`, returning it
together with its local part; otherwise it fails with the email-provision
error carrying the diagnostic context.  Conjuncts: (1) a truthy
input-field value makes the result independent of the clipboard and
page-text oracles; (2) a truthy clipboard value makes the result
independent of the page-text oracle; (3) when the input field is falsy
and the clipboard strategy raises, the page-text value is used; (4) any
successful return contains `@`, is non-empty, and carries its local
part; (5) any failure carries the fixed error message and the diagnostic
context. -/
theorem medo_C3 :
    (∀ (i c c' p p' : Option String) (d : TempMailDiag), pyTruthy i = true →
        create_temp_email ⟨i, c, p⟩ d = create_temp_email ⟨i, c', p'⟩ d)
    ∧ (∀ (i : Option String) (v : String) (p p' : Option String)
        (d : TempMailDiag), pyTruthy i = false → v ≠ "" →
        create_temp_email ⟨i, some v, p⟩ d = create_temp_email ⟨i, some v, p'⟩ d)
    ∧ (∀ (i : Option String) (t : String) (d : TempMailDiag),
        pyTruthy i = false → t ≠ "" →
        create_temp_email ⟨i, none, some t⟩ d =
          if t.data.contains '@' then Except.ok (t, emailLocalPart t)
          else Except.error ("Could not retrieve email address", d))
    ∧ (∀ (m : ExtractionMethods) (d : TempMailDiag) (e u : String),
        create_temp_email m d = Except.ok (e, u) →
        e.data.contains '@' = true ∧ e ≠ "" ∧ u = emailLocalPart e)
    ∧ (∀ (m : ExtractionMethods) (d : TempMailDiag) (msg : String)
        (d' : TempMailDiag),
        create_temp_email m d = Except.error (msg, d') →
        msg = "Could not retrieve email address" ∧ d' = d) := by
  refine ⟨?_, ?_, ?_, create_temp_email_ok, create_temp_email_error⟩
  · intro i c c' p p' d h
    unfold create_temp_email
    rw [emailAfterMethods_truthy1 ⟨i, c, p⟩ h,
      emailAfterMethods_truthy1 ⟨i, c', p'⟩ h]
  · intro i v p p' d h1 h2
    unfold create_temp_email
    rw [emailAfterMethods_clipboard ⟨i, some v, p⟩ v h1 rfl h2,
      emailAfterMethods_clipboard ⟨i, some v, p'⟩ v h1 rfl h2]
  · intro i t d h1 h2
    unfold create_temp_email
    rw [emailAfterMethods_pageText ⟨i, none, some t⟩ t h1 rfl rfl]
    have ht : (t != "") = true := by simp [h2]
    simp [finishEmail, ht]

theorem medo_C3_witness :
    ("a@b.cd").data.contains '@' = true ∧ "a@b.cd" ≠ ""
    ∧ "a" = emailLocalPart "a@b.cd" :=
  medo_C3.2.2.2.1 ⟨some "a@b.cd", none, none⟩ ⟨"u", "t", "i", "b"⟩ "a@b.cd" "a" rfl

/-! ### Workflow engine (medo.py lines 823-894) and browser lifecycle

`AutomationEngine.run` generates a password, opens a browser session and
runs the five workflow steps inside `try/except/finally`.  Browser and
registry side effects are reified as an event trace in execution order.
Step outcomes beyond step 1 are oracle `Except String Unit` values (the
error string is the exception's message, `str(e)`). -/

/-- Browser/side-effect events of one engine run, in execution order. -/
inductive BEvent where
  /-- Chrome `Options` object assembled (no session exists yet). -/
  | buildOptions
  /-- `webdriver.Chrome(...)`: the browser session is created. -/
  | newChrome
  /-- `stealth(self.driver, ...)`: stealth adjustments applied to the session. -/
  | stealth
  /-- `_active_drivers.append(self.driver)`: session added to the
  process-wide live-session registry. -/
  | registerDriver
  /-- `generate_password()` called, yielding this password. -/
  | genPassword (password : String)
  /-- `_register_account(email, password)`: signup form submitted. -/
  | submitSignup (email password : String)
  /-- `_login_and_validate(email, password)`: login form submitted. -/
  | submitLogin (email password : String)
  /-- `self.driver.delete_all_cookies()` called. -/
  | delCookies
  /-- `window.localStorage.clear()` executed. -/
  | clearLocal
  /-- `window.sessionStorage.clear()` executed. -/
  | clearSession
  /-- `self.driver.quit()` called: the session is released. -/
  | quitDriver
  /-- `_active_drivers.remove(self.driver)`: session dropped from the registry. -/
  | deregister
deriving DecidableEq, Repr

/-- Success/failure oracles for the four fallible calls of the `finally`
cleanup block (each `false` models the call raising). -/
structure CleanupOps where
  delCookiesOk : Bool
  clearLocalOk : Bool
  clearSessionOk : Bool
  quitOk : Bool
deriving DecidableEq, Repr

/-- The `finally` block of `run` (medo.py lines 878-894): when a driver
exists, clear cookies, then local storage, then session storage, then
quit, then deregister; the first failing call aborts the rest, and the
surrounding `except Exception: pass` swallows the failure. -/
def cleanupEvents (driverPresent : Bool) (c : CleanupOps) : List BEvent :=
  if driverPresent then
    BEvent.delCookies ::
      (if c.delCookiesOk then
        BEvent.clearLocal ::
          (if c.clearLocalOk then
            BEvent.clearSession ::
              (if c.clearSessionOk then
                BEvent.quitDriver ::
                  (if c.quitOk then [BEvent.deregister] else [])
              else [])
          else [])
      else [])
  else []

/-- Oracle world for one engine run: outcomes of driver creation, the
email-extraction strategies, the remaining workflow steps, the cleanup
calls, and the password randomness. -/
structure EngineWorld where
  pick : Nat → Nat
  createOk : Except String Unit
  methods : ExtractionMethods
  diag : TempMailDiag
  registerStep : Except String Unit
  verifyStep : Except String Unit
  completeStep : Except String Unit
  loginStep : Except String Unit
  cleanup : CleanupOps

/-- Failed `AccountResult` as built in `run`'s `except` branch: it keeps
whatever `email` was obtained and the generated password. -/
def failResult (email : Option String) (password : String) (msg : String)
    (tid idx : Nat) : AccountResult :=
  { success := false, email := email, password := some password,
    error := some msg, thread_id := tid, account_index := idx }

/-- Successful `AccountResult` as built at the end of `run`'s `try`. -/
def successResult (email password : String) (tid idx : Nat) : AccountResult :=
  { success := true, email := some email, password := some password,
    thread_id := tid, account_index := idx }

/-- The workflow steps performed after the driver exists (steps 1-5 of
`run`), with the events they emit.  A step's failure is caught at the
`except` boundary of `run` and converted into a failed result. -/
def afterDriverFlow (w : EngineWorld) (password : String) (tid idx : Nat) :
    AccountResult × List BEvent :=
  match create_temp_email w.methods w.diag with
  | Except.error (msg, _) => (failResult none password msg tid idx, [])
  | Except.ok (email, _) =>
    match w.registerStep with
    | Except.error msg => (failResult (some email) password msg tid idx, [])
    | Except.ok _ =>
      match w.verifyStep with
      | Except.error msg =>
        (failResult (some email) password msg tid idx,
         [BEvent.submitSignup email password])
      | Except.ok _ =>
        match w.completeStep with
        | Except.error msg =>
          (failResult (some email) password msg tid idx,
           [BEvent.submitSignup email password])
        | Except.ok _ =>
          match w.loginStep with
          | Except.error msg =>
            (failResult (some email) password msg tid idx,
             [BEvent.submitSignup email password])
          | Except.ok _ =>
            (successResult email password tid idx,
             [BEvent.submitSignup email password,
              BEvent.submitLogin email password])

/-- The `try/except` part of `run`: driver creation
(`BrowserManager.create_driver`, medo.py lines 308-351: options built,
Chrome started, stealth applied, session registered — in that order)
followed by the five workflow steps. -/
def engineBody (w : EngineWorld) (password : String) (tid idx : Nat) :
    AccountResult × List BEvent :=
  match w.createOk with
  | Except.error msg =>
    (failResult none password msg tid idx, [BEvent.buildOptions, BEvent.newChrome])
  | Except.ok _ =>
    let flow := afterDriverFlow w password tid idx
    (flow.1,
     BEvent.buildOptions :: BEvent.newChrome :: BEvent.stealth ::
       BEvent.registerDriver :: flow.2)

/-- Whether `self.driver` is set after the `try` body ran (creation
succeeded), which is what the `finally` block's `if self.driver:` tests. -/
def driverPresent : Except String Unit → Bool
  | Except.ok _ => true
  | Except.error _ => false

/-- `AutomationEngine.run` (medo.py lines 823-894): password generated
once up front, then the `try/except` body, then the guaranteed `finally`
cleanup.  The function is total: no exception propagates out of `run`. -/
def engineRun (w : EngineWorld) (tid idx : Nat) : AccountResult × List BEvent :=
  let password := generate_password w.pick
  let body := engineBody w password tid idx
  (body.1,
   BEvent.genPassword password :: body.2
     ++ cleanupEvents (driverPresent w.createOk) w.cleanup)

/-- The synthetic failed result built when the shutdown flag is observed
(medo.py lines 1027-1033 and 1050-1056). -/
def shutdownResult (idx : Nat) : AccountResult :=
  { success := false, error := some "Shutdown requested",
    thread_id := idx, account_index := idx }

/-- `AutomationOrchestrator._run_single_account` (medo.py lines
1024-1044): if the shutdown flag is set, return the synthetic failed
result without constructing an engine (empty event trace); otherwise run
the engine with `thread_id = account_idx`. -/
def run_single_account (shutdownFlag : Bool) (w : EngineWorld)
    (account_idx _total : Nat) : AccountResult × List BEvent :=
  if shutdownFlag then (shutdownResult account_idx, [])
  else engineRun w account_idx account_idx

/-- Recognizer for the session-release event. -/
def isQuit : BEvent → Bool
  | BEvent.quitDriver => true
  | _ => false

/-- Recognizer for the password-generation event. -/
def isGenPassword : BEvent → Bool
  | BEvent.genPassword _ => true
  | _ => false

/-- Number of `driver.quit()` calls in a trace. -/
def quitCount (tr : List BEvent) : Nat := tr.countP isQuit

theorem afterDriverFlow_events (w : EngineWorld) (p : String) (tid idx : Nat) :
    ∀ ev ∈ (afterDriverFlow w p tid idx).2,
      (∃ e, ev = BEvent.submitSignup e p) ∨ (∃ e, ev = BEvent.submitLogin e p) := by
  unfold afterDriverFlow
  rcases create_temp_email w.methods w.diag with ⟨msg, dd⟩ | ⟨email, uu⟩ <;>
    rcases w.registerStep with msg2 | _ <;>
    rcases w.verifyStep with msg3 | _ <;>
    rcases w.completeStep with msg4 | _ <;>
    rcases w.loginStep with msg5 | _ <;>
    intro ev hev <;> simp at hev <;> rcases hev with rfl | rfl <;>
    first
      | exact Or.inl ⟨email, rfl⟩
      | exact Or.inr ⟨email, rfl⟩

theorem afterDriverFlow_password (w : EngineWorld) (p : String) (tid idx : Nat) :
    (afterDriverFlow w p tid idx).1.password = some p := by
  unfold afterDriverFlow
  rcases create_temp_email w.methods w.diag with ⟨msg, dd⟩ | ⟨email, uu⟩ <;>
    rcases w.registerStep with msg2 | _ <;>
    rcases w.verifyStep with msg3 | _ <;>
    rcases w.completeStep with msg4 | _ <;>
    rcases w.loginStep with msg5 | _ <;>
    rfl

theorem engineRun_password (w : EngineWorld) (tid idx : Nat) :
    (engineRun w tid idx).1.password = some (generate_password w.pick) := by
  unfold engineRun engineBody
  rcases w.createOk with msg | _
  · rfl
  · exact afterDriverFlow_password w _ tid idx

theorem cleanupEvents_mem (dp : Bool) (c : CleanupOps) :
    ∀ ev ∈ cleanupEvents dp c,
      ev = BEvent.delCookies ∨ ev = BEvent.clearLocal ∨ ev = BEvent.clearSession
        ∨ ev = BEvent.quitDriver ∨ ev = BEvent.deregister := by
  rcases c with ⟨d, l, s, q⟩
  cases dp <;> cases d <;> cases l <;> cases s <;> cases q <;> decide

theorem cleanupEvents_quitCount (dp : Bool) (c : CleanupOps) :
    quitCount (cleanupEvents dp c) ≤ 1 := by
  rcases c with ⟨d, l, s, q⟩
  cases dp <;> cases d <;> cases l <;> cases s <;> cases q <;> decide

theorem cleanupEvents_full (c : CleanupOps) (h1 : c.delCookiesOk = true)
    (h2 : c.clearLocalOk = true) (h3 : c.clearSessionOk = true) :
    cleanupEvents true c =
      BEvent.delCookies :: BEvent.clearLocal :: BEvent.clearSession ::
        BEvent.quitDriver :: (if c.quitOk then [BEvent.deregister] else []) := by
  rcases c with ⟨d, l, s, q⟩
  subst h1; subst h2; subst h3
  rfl

theorem afterDriverFlow_quitCount (w : EngineWorld) (p : String) (tid idx : Nat) :
    quitCount (afterDriverFlow w p tid idx).2 = 0 := by
  have h := afterDriverFlow_events w p tid idx
  unfold quitCount
  rw [List.countP_eq_zero]
  intro ev hev
  rcases h ev hev with ⟨e, rfl⟩ | ⟨e, rfl⟩ <;> simp [isQuit]

theorem afterDriverFlow_genCount (w : EngineWorld) (p : String) (tid idx : Nat) :
    (afterDriverFlow w p tid idx).2.countP isGenPassword = 0 := by
  have h := afterDriverFlow_events w p tid idx
  rw [List.countP_eq_zero]
  intro ev hev
  rcases h ev hev with ⟨e, rfl⟩ | ⟨e, rfl⟩ <;> simp [isGenPassword]

theorem cleanupEvents_genCount (dp : Bool) (c : CleanupOps) :
    (cleanupEvents dp c).countP isGenPassword = 0 := by
  rw [List.countP_eq_zero]
  intro ev hev
  rcases cleanupEvents_mem dp c ev hev with rfl | rfl | rfl | rfl | rfl <;>
    simp [isGenPassword]

theorem engineBody_events (w : EngineWorld) (p : String) (tid idx : Nat) :
    ∀ ev ∈ (engineBody w p tid idx).2,
      ev = BEvent.buildOptions ∨ ev = BEvent.newChrome ∨ ev = BEvent.stealth
        ∨ ev = BEvent.registerDriver
        ∨ (∃ e, ev = BEvent.submitSignup e p)
        ∨ (∃ e, ev = BEvent.submitLogin e p) := by
  unfold engineBody
  rcases w.createOk with msg | _
  · intro ev hev
    rcases hev with _ | ⟨_, hev⟩
    · exact Or.inl rfl
    · rcases hev with _ | ⟨_, hev⟩
      · exact Or.inr (Or.inl rfl)
      · cases hev
  · intro ev hev
    rcases hev with _ | ⟨_, hev⟩
    · exact Or.inl rfl
    rcases hev with _ | ⟨_, hev⟩
    · exact Or.inr (Or.inl rfl)
    rcases hev with _ | ⟨_, hev⟩
    · exact Or.inr (Or.inr (Or.inl rfl))
    rcases hev with _ | ⟨_, hev⟩
    · exact Or.inr (Or.inr (Or.inr (Or.inl rfl)))
    rcases afterDriverFlow_events w p tid idx ev hev with h | h
    · exact Or.inr (Or.inr (Or.inr (Or.inr (Or.inl h))))
    · exact Or.inr (Or.inr (Or.inr (Or.inr (Or.inr h))))

theorem engineBody_genCount (w : EngineWorld) (p : String) (tid idx : Nat) :
    (engineBody w p tid idx).2.countP isGenPassword = 0 := by
  rw [List.countP_eq_zero]
  intro ev hev
  rcases engineBody_events w p tid idx ev hev with
    rfl | rfl | rfl | rfl | ⟨e, rfl⟩ | ⟨e, rfl⟩ <;> simp [isGenPassword]

theorem engineBody_quitCount (w : EngineWorld) (p : String) (tid idx : Nat) :
    quitCount (engineBody w p tid idx).2 = 0 := by
  unfold quitCount
  rw [List.countP_eq_zero]
  intro ev hev
  rcases engineBody_events w p tid idx ev hev with
    rfl | rfl | rfl | rfl | ⟨e, rfl⟩ | ⟨e, rfl⟩ <;> simp [isQuit]

/-- Claim C10: within one workflow attempt the password is generated
exactly once at the start of `run`; that same string is submitted on the
signup form, submitted at login validation, and carried in the returned
`AccountResult` on both the success and the failure path (including
failures before signup, where the result still carries it). -/
theorem medo_C10 (w : EngineWorld) (tid idx : Nat) :
    (engineRun w tid idx).1.password = some (generate_password w.pick)
    ∧ (engineRun w tid idx).2.countP isGenPassword = 1
    ∧ (∀ e q, BEvent.submitSignup e q ∈ (engineRun w tid idx).2 →
        q = generate_password w.pick)
    ∧ (∀ e q, BEvent.submitLogin e q ∈ (engineRun w tid idx).2 →
        q = generate_password w.pick) := by
  refine ⟨engineRun_password w tid idx, ?_, ?_, ?_⟩
  · show (BEvent.genPassword (generate_password w.pick) ::
      (engineBody w (generate_password w.pick) tid idx).2
        ++ cleanupEvents (driverPresent w.createOk) w.cleanup).countP
          isGenPassword = 1
    simp [List.countP_cons, List.countP_append, engineBody_genCount,
      cleanupEvents_genCount, isGenPassword]
  · intro e q hev
    rcases hev with _ | ⟨_, hev⟩
    rcases List.mem_append.mp hev with hb | hc
    · rcases engineBody_events w _ tid idx _ hb with
        h | h | h | h | ⟨e', h⟩ | ⟨e', h⟩ <;> first
        | (injection h with h1 h2; try exact h2)
        | cases h
    · rcases cleanupEvents_mem _ _ _ hc with h | h | h | h | h <;> cases h
  · intro e q hev
    rcases hev with _ | ⟨_, hev⟩
    rcases List.mem_append.mp hev with hb | hc
    · rcases engineBody_events w _ tid idx _ hb with
        h | h | h | h | ⟨e', h⟩ | ⟨e', h⟩ <;> first
        | (injection h with h1 h2; try exact h2)
        | cases h
    · rcases cleanupEvents_mem _ _ _ hc with h | h | h | h | h <;> cases h

/-- An oracle world in which every browser interaction succeeds. -/
def okWorld : EngineWorld where
  pick := fun _ => 0
  createOk := Except.ok ()
  methods := ⟨some "a@b.cd", none, none⟩
  diag := ⟨"u", "t", "i", "b"⟩
  registerStep := Except.ok ()
  verifyStep := Except.ok ()
  completeStep := Except.ok ()
  loginStep := Except.ok ()
  cleanup := ⟨true, true, true, true⟩

theorem medo_C10_witness : "aaaaaaaaaaaa" = generate_password okWorld.pick :=
  (medo_C10 okWorld 0 1).2.2.1 "a@b.cd" "aaaaaaaaaaaa" (by decide)

/-! ### Retry wrapper (medo.py lines 1046-1067)

`_run_with_retry` loops `attempt` over `range(max_retries + 1)`; each
iteration first reads the shutdown flag (returning the synthetic shutdown
result if set), sleeps 2 seconds when `attempt > 0`, invokes
`_run_single_account`, and returns its result if successful; after the
loop the last result is returned.  The per-attempt outcome and the flag
read are oracles indexed by the attempt number; the sleeps and engine
invocations are recorded as a trace. -/

/-- Observable actions of the retry loop. -/
inductive RetryEvent where
  /-- `time.sleep(secs)` between attempts. -/
  | delay (secs : Nat)
  /-- `_run_single_account` invoked for this attempt number. -/
  | invoke (attempt : Nat)
deriving DecidableEq, Repr

/-- The retry loop body: `remaining` iterations left, current `attempt`
number, and `last` the value of the `result` variable from the previous
iteration (returned when the loop exhausts). -/
def retryLoop (engine : Nat → AccountResult) (shutdown : Nat → Bool)
    (idx : Nat) : Nat → Nat → AccountResult → AccountResult × List RetryEvent
  | 0, _, last => (last, [])
  | remaining + 1, attempt, _ =>
    if shutdown attempt then (shutdownResult idx, [])
    else
      let pre : List RetryEvent :=
        if attempt = 0 then [] else [RetryEvent.delay 2]
      let r := engine attempt
      if r.success then (r, pre ++ [RetryEvent.invoke attempt])
      else
        let next := retryLoop engine shutdown idx remaining (attempt + 1) r
        (next.1, pre ++ RetryEvent.invoke attempt :: next.2)

/-- `_run_with_retry(account_idx)` with retry budget `maxRetries`:
`maxRetries + 1` loop iterations starting at attempt 0.  (The `last`
seed is never returned since the loop body runs at least once.) -/
def runWithRetry (engine : Nat → AccountResult) (shutdown : Nat → Bool)
    (idx maxRetries : Nat) : AccountResult × List RetryEvent :=
  retryLoop engine shutdown idx (maxRetries + 1) 0 (shutdownResult idx)

/-- The event trace of `count` consecutive failing attempts starting at
attempt number `start`: a 2-second delay before every attempt except
attempt 0. -/
def retryTrace : Nat → Nat → List RetryEvent
  | _, 0 => []
  | start, count + 1 =>
    (if start = 0 then [] else [RetryEvent.delay 2]) ++
      RetryEvent.invoke start :: retryTrace (start + 1) count

/-- Recognizer for engine invocations. -/
def isInvoke : RetryEvent → Bool
  | RetryEvent.invoke _ => true
  | _ => false

/-- Number of engine invocations in a retry trace. -/
def invokeCount (tr : List RetryEvent) : Nat := tr.countP isInvoke

theorem invokeCount_pre (attempt : Nat) :
    invokeCount (if attempt = 0 then [] else [RetryEvent.delay 2]) = 0 := by
  split <;> rfl

theorem retryLoop_invokeCount (engine : Nat → AccountResult)
    (shutdown : Nat → Bool) (idx : Nat) : ∀ (remaining attempt : Nat)
    (last : AccountResult),
    invokeCount (retryLoop engine shutdown idx remaining attempt last).2
      ≤ remaining := by
  intro remaining
  induction remaining with
  | zero => intro attempt last; simp [retryLoop, invokeCount]
  | succ n ih =>
    intro attempt last
    unfold retryLoop
    cases hs : shutdown attempt
    · simp only [Bool.false_eq_true, if_false]
      cases hr : (engine attempt).success
      · simp only [Bool.false_eq_true, if_false]
        unfold invokeCount
        rw [List.countP_append, List.countP_cons]
        have h1 := invokeCount_pre attempt
        unfold invokeCount at h1
        rw [h1]
        have h2 := ih (attempt + 1) (engine attempt)
        unfold invokeCount at h2
        simp [isInvoke]
        omega
      · simp only [if_true]
        unfold invokeCount
        rw [List.countP_append]
        have h1 := invokeCount_pre attempt
        unfold invokeCount at h1
        rw [h1]
        simp [isInvoke]
    · simp [invokeCount]

theorem retryLoop_first_success (engine : Nat → AccountResult)
    (shutdown : Nat → Bool) (idx : Nat) (hsd : ∀ a, shutdown a = false) :
    ∀ (j remaining attempt : Nat) (last : AccountResult), j < remaining →
      (∀ b, b < j → (engine (attempt + b)).success = false) →
      (engine (attempt + j)).success = true →
      retryLoop engine shutdown idx remaining attempt last =
        (engine (attempt + j), retryTrace attempt (j + 1)) := by
  intro j
  induction j with
  | zero =>
    intro remaining attempt last hlt _ hsucc
    obtain ⟨n, rfl⟩ : ∃ n, remaining = n + 1 := ⟨remaining - 1, by omega⟩
    rw [Nat.add_zero] at hsucc ⊢
    unfold retryLoop
    simp only [hsd attempt, Bool.false_eq_true, if_false, hsucc, if_true]
    simp [retryTrace]
  | succ j ih =>
    intro remaining attempt last hlt hfail hsucc
    obtain ⟨n, rfl⟩ : ∃ n, remaining = n + 1 := ⟨remaining - 1, by omega⟩
    have hf0 : (engine attempt).success = false := by
      have := hfail 0 (by omega)
      rwa [Nat.add_zero] at this
    unfold retryLoop
    simp only [hsd attempt, Bool.false_eq_true, if_false, hf0]
    have harg : attempt + (j + 1) = attempt + 1 + j := by omega
    rw [harg] at hsucc
    have hrec := ih n (attempt + 1) (engine attempt) (by omega)
      (fun b hb => by
        have := hfail (b + 1) (by omega)
        rwa [show attempt + (b + 1) = attempt + 1 + b from by omega] at this)
      hsucc
    rw [hrec, harg]
    conv_rhs => rw [retryTrace]

theorem retryLoop_all_fail (engine : Nat → AccountResult)
    (shutdown : Nat → Bool) (idx : Nat) (hsd : ∀ a, shutdown a = false) :
    ∀ (n attempt : Nat) (last : AccountResult),
      (∀ b, b ≤ n → (engine (attempt + b)).success = false) →
      retryLoop engine shutdown idx (n + 1) attempt last =
        (engine (attempt + n), retryTrace attempt (n + 1)) := by
  intro n
  induction n with
  | zero =>
    intro attempt last hfail
    have hf0 : (engine attempt).success = false := by
      have := hfail 0 (by omega)
      rwa [Nat.add_zero] at this
    unfold retryLoop
    simp only [hsd attempt, Bool.false_eq_true, if_false, hf0]
    simp [retryLoop, retryTrace]
  | succ n ih =>
    intro attempt last hfail
    have hf0 : (engine attempt).success = false := by
      have := hfail 0 (by omega)
      rwa [Nat.add_zero] at this
    unfold retryLoop
    simp only [hsd attempt, Bool.false_eq_true, if_false, hf0]
    have hrec := ih (attempt + 1) (engine attempt)
      (fun b hb => by
        have := hfail (b + 1) (by omega)
        rwa [show attempt + (b + 1) = attempt + 1 + b from by omega] at this)
    rw [hrec, show attempt + 1 + n = attempt + (n + 1) from by omega]
    conv_rhs => rw [retryTrace]

theorem retryTrace_delay : ∀ (count start a : Nat), 0 < a →
    RetryEvent.invoke a ∈ retryTrace start count →
    ∃ p q, retryTrace start count =
      p ++ RetryEvent.delay 2 :: RetryEvent.invoke a :: q := by
  intro count
  induction count with
  | zero => intro start a _ h; simp [retryTrace] at h
  | succ n ih =>
    intro start a ha h
    rw [retryTrace] at h
    rcases List.mem_append.mp h with hp | ht
    · by_cases hs : start = 0 <;> simp [hs] at hp
    · rcases List.mem_cons.mp ht with heq | ht'
      · injection heq with ha2
        subst ha2
        have hs : ¬ a = 0 := by omega
        refine ⟨[], retryTrace (a + 1) n, ?_⟩
        rw [retryTrace]
        simp [hs]
      · obtain ⟨p, q, hpq⟩ := ih (start + 1) a ha ht'
        refine ⟨(if start = 0 then [] else [RetryEvent.delay 2])
          ++ RetryEvent.invoke start :: p, q, ?_⟩
        rw [retryTrace, hpq]
        simp

theorem retryTrace_zero_head (count : Nat) :
    retryTrace 0 (count + 1) = RetryEvent.invoke 0 :: retryTrace 1 count := by
  rw [retryTrace]
  simp

/-- Claim C1: with retry budget `R` (and no shutdown), the retry wrapper
invokes the engine at most `R + 1` times; when attempt `a ≤ R` is the
first success it returns exactly that attempt's result, having executed
attempts `0..a` only; when all `R + 1` attempts fail it returns the last
attempt's result; a fixed 2-second delay precedes every attempt after
the first, and no delay precedes attempt 0. -/
theorem medo_C1 (engine : Nat → AccountResult) (R idx a : Nat) :
    invokeCount (runWithRetry engine (fun _ => false) idx R).2 ≤ R + 1
    ∧ (a ≤ R → (engine a).success = true →
        (∀ b, b < a → (engine b).success = false) →
        runWithRetry engine (fun _ => false) idx R =
          (engine a, retryTrace 0 (a + 1)))
    ∧ ((∀ b, b ≤ R → (engine b).success = false) →
        runWithRetry engine (fun _ => false) idx R =
          (engine R, retryTrace 0 (R + 1)))
    ∧ (∀ count c, 0 < c → RetryEvent.invoke c ∈ retryTrace 0 count →
        ∃ p q, retryTrace 0 count =
          p ++ RetryEvent.delay 2 :: RetryEvent.invoke c :: q)
    ∧ (∀ count, retryTrace 0 (count + 1) =
        RetryEvent.invoke 0 :: retryTrace 1 count) := by
  refine ⟨retryLoop_invokeCount engine _ idx (R + 1) 0 (shutdownResult idx),
    ?_, ?_, fun count c => retryTrace_delay count 0 c, retryTrace_zero_head⟩
  · intro ha hsucc hfail
    have := retryLoop_first_success engine (fun _ => false) idx
      (fun _ => rfl) a (R + 1) 0 (shutdownResult idx) (by omega)
      (fun b hb => by simpa using hfail b hb) (by simpa using hsucc)
    simpa [runWithRetry] using this
  · intro hfail
    have := retryLoop_all_fail engine (fun _ => false) idx (fun _ => rfl)
      R 0 (shutdownResult idx) (fun b hb => by simpa using hfail b hb)
    simpa [runWithRetry] using this

/-- Engine oracle whose attempt 1 succeeds and all other attempts fail. -/
def engW : Nat → AccountResult := fun n =>
  if n = 1 then { success := true, email := some "e@x.yz", password := some "pw" }
  else { success := false, error := some "boom" }

/-- Engine oracle whose attempts all fail. -/
def engF : Nat → AccountResult := fun _ =>
  { success := false, error := some "boom" }

theorem medo_C1_witness :
    runWithRetry engW (fun _ => false) 5 2 = (engW 1, retryTrace 0 2)
    ∧ runWithRetry engF (fun _ => false) 5 2 = (engF 2, retryTrace 0 3)
    ∧ (∃ p q, retryTrace 0 3 =
        p ++ RetryEvent.delay 2 :: RetryEvent.invoke 1 :: q) := by
  refine ⟨?_, ?_, ?_⟩
  · exact (medo_C1 engW 2 5 1).2.1 (by omega) (by decide)
      (fun b hb => by
        have hb0 : b = 0 := Nat.lt_one_iff.mp hb
        subst hb0
        rfl)
  · exact (medo_C1 engF 2 5 2).2.2.1 (fun b _ => rfl)
  · exact (medo_C1 engF 2 5 0).2.2.2.1 3 1 (by omega) (by decide)

/-! ### Result well-formedness (spec section 3 invariants) -/

/-- The invariant claimed for `AccountResult`: a successful result carries
non-empty email and password, a failed one a non-empty error. -/
def resultWellformed (r : AccountResult) : Bool :=
  if r.success then
    match r.email, r.password with
    | some e, some p => e != "" && p != ""
    | _, _ => false
  else
    match r.error with
    | some m => m != ""
    | none => false

theorem shutdownResult_wellformed (idx : Nat) :
    resultWellformed (shutdownResult idx) = true := rfl

theorem contains_at_ne_empty (e : String) (h : e.data.contains '@' = true) :
    e ≠ "" := by
  intro he
  subst he
  exact absurd h (by decide)

theorem afterDriverFlow_wellformed (w : EngineWorld) (p : String)
    (tid idx : Nat) (hp : p ≠ "")
    (h2 : ∀ msg, w.registerStep = Except.error msg → msg ≠ "")
    (h3 : ∀ msg, w.verifyStep = Except.error msg → msg ≠ "")
    (h4 : ∀ msg, w.completeStep = Except.error msg → msg ≠ "")
    (h5 : ∀ msg, w.loginStep = Except.error msg → msg ≠ "") :
    resultWellformed (afterDriverFlow w p tid idx).1 = true := by
  unfold afterDriverFlow
  rcases hcte : create_temp_email w.methods w.diag with ⟨msg, dd⟩ | ⟨email, uu⟩
  · obtain ⟨rfl, -⟩ := create_temp_email_error _ _ _ _ hcte
    simp [resultWellformed, failResult]
  · have hat : email.data.contains '@' = true :=
      (create_temp_email_ok _ _ _ _ hcte).1
    have hemail : email ≠ "" := contains_at_ne_empty email hat
    rcases hr : w.registerStep with msg2 | _
    · simp [resultWellformed, failResult, h2 msg2 hr]
    rcases hv : w.verifyStep with msg3 | _
    · simp [resultWellformed, failResult, h3 msg3 hv]
    rcases hc : w.completeStep with msg4 | _
    · simp [resultWellformed, failResult, h4 msg4 hc]
    rcases hl : w.loginStep with msg5 | _
    · simp [resultWellformed, failResult, h5 msg5 hl]
    · simp [resultWellformed, successResult, hemail, hp]

theorem engineRun_wellformed (w : EngineWorld) (tid idx : Nat)
    (h1 : ∀ msg, w.createOk = Except.error msg → msg ≠ "")
    (h2 : ∀ msg, w.registerStep = Except.error msg → msg ≠ "")
    (h3 : ∀ msg, w.verifyStep = Except.error msg → msg ≠ "")
    (h4 : ∀ msg, w.completeStep = Except.error msg → msg ≠ "")
    (h5 : ∀ msg, w.loginStep = Except.error msg → msg ≠ "") :
    resultWellformed (engineRun w tid idx).1 = true := by
  show resultWellformed (engineBody w (generate_password w.pick) tid idx).1 = true
  unfold engineBody
  rcases hco : w.createOk with msg | _
  · simp [resultWellformed, failResult, h1 msg hco]
  · exact afterDriverFlow_wellformed w _ tid idx
      (generate_password_ne_empty w.pick) h2 h3 h4 h5

theorem retryLoop_wellformed (engine : Nat → AccountResult)
    (shutdown : Nat → Bool) (idx : Nat)
    (heng : ∀ a, resultWellformed (engine a) = true) :
    ∀ (remaining attempt : Nat) (last : AccountResult),
      resultWellformed last = true →
      resultWellformed (retryLoop engine shutdown idx remaining attempt last).1
        = true := by
  intro remaining
  induction remaining with
  | zero => intro attempt last hlast; simpa [retryLoop] using hlast
  | succ n ih =>
    intro attempt last hlast
    unfold retryLoop
    cases hs : shutdown attempt
    · simp only [Bool.false_eq_true, if_false]
      cases hr : (engine attempt).success
      · simp only [Bool.false_eq_true, if_false]
        exact ih (attempt + 1) (engine attempt) (heng attempt)
      · simp only [if_true]
        exact heng attempt
    · simp only [if_true]
      exact shutdownResult_wellformed idx

/-- Claim C4: every `AccountResult` the system produces — from the
workflow engine, from `_run_single_account` (including its shutdown
short-circuit), or from the retry wrapper — satisfies: success implies
non-empty email and password, failure implies a non-empty error.  The
hypotheses state that externally raised exceptions (`str(e)` of driver
and step failures) have non-empty messages; all internally raised
messages are fixed non-empty literals. -/
theorem medo_C4 (w : EngineWorld) (tid idx : Nat)
    (h1 : ∀ msg, w.createOk = Except.error msg → msg ≠ "")
    (h2 : ∀ msg, w.registerStep = Except.error msg → msg ≠ "")
    (h3 : ∀ msg, w.verifyStep = Except.error msg → msg ≠ "")
    (h4 : ∀ msg, w.completeStep = Except.error msg → msg ≠ "")
    (h5 : ∀ msg, w.loginStep = Except.error msg → msg ≠ "") :
    resultWellformed (engineRun w tid idx).1 = true
    ∧ (∀ (f : Bool) (t : Nat),
        resultWellformed (run_single_account f w idx t).1 = true)
    ∧ resultWellformed (shutdownResult idx) = true
    ∧ (∀ (engine : Nat → AccountResult) (shutdown : Nat → Bool) (R i : Nat),
        (∀ a, resultWellformed (engine a) = true) →
        resultWellformed (runWithRetry engine shutdown i R).1 = true) := by
  refine ⟨engineRun_wellformed w tid idx h1 h2 h3 h4 h5, ?_,
    shutdownResult_wellformed idx, ?_⟩
  · intro f t
    cases f
    · simpa [run_single_account] using
        engineRun_wellformed w idx idx h1 h2 h3 h4 h5
    · simpa [run_single_account] using shutdownResult_wellformed idx
  · intro engine shutdown R i heng
    exact retryLoop_wellformed engine shutdown i heng (R + 1) 0
      (shutdownResult i) (shutdownResult_wellformed i)

theorem medo_C4_witness :
    resultWellformed (engineRun okWorld 0 1).1 = true :=
  (medo_C4 okWorld 0 1
    (fun msg h => by simp [okWorld] at h)
    (fun msg h => by simp [okWorld] at h)
    (fun msg h => by simp [okWorld] at h)
    (fun msg h => by simp [okWorld] at h)
    (fun msg h => by simp [okWorld] at h)).1

/-- Claim C5: when the shutdown flag is set before an attempt starts,
`_run_single_account` returns the synthetic failed result with error
`"Shutdown requested"` and an empty side-effect trace: the engine is
never constructed and no browser session is opened; the retry wrapper
behaves the same without invoking the engine. -/
theorem medo_C5 (w : EngineWorld) (idx total R : Nat)
    (engine : Nat → AccountResult) :
    run_single_account true w idx total = (shutdownResult idx, [])
    ∧ runWithRetry engine (fun _ => true) idx R = (shutdownResult idx, [])
    ∧ shutdownResult idx =
        { success := false, email := none, password := none,
          error := some "Shutdown requested", thread_id := idx,
          account_index := idx, duration := 0 }
    ∧ (∀ ev : BEvent, ev ∉ (run_single_account true w idx total).2)
    ∧ (∀ ev : RetryEvent,
        ev ∉ (runWithRetry engine (fun _ => true) idx R).2) := by
  have hrw : runWithRetry engine (fun _ => true) idx R =
      (shutdownResult idx, []) := by
    unfold runWithRetry retryLoop
    simp
  refine ⟨rfl, hrw, rfl, ?_, ?_⟩
  · intro ev hev
    simp [run_single_account] at hev
  · intro ev hev
    rw [hrw] at hev
    simp at hev

theorem cleanupEvents_quitCount_full (c : CleanupOps)
    (h1 : c.delCookiesOk = true) (h2 : c.clearLocalOk = true)
    (h3 : c.clearSessionOk = true) :
    quitCount (cleanupEvents true c) = 1 := by
  rcases c with ⟨d, l, s, q⟩
  subst h1; subst h2; subst h3
  cases q <;> rfl

/-- A world identical to `okWorld` except that `delete_all_cookies()`
raises during cleanup. -/
def cleanupFailWorld : EngineWorld :=
  { okWorld with cleanup := ⟨false, true, true, true⟩ }

/-- Claim C6 (counterexample): the claim asserts the session is released
(quit) exactly once on every exit path.  In `run`'s `finally` block the
three storage-clearing calls precede `driver.quit()` inside the same
`try`, so when `delete_all_cookies()` raises, the swallowing `except`
skips `quit()` entirely: here a session was opened (`newChrome` occurs),
cleanup ran (`delCookies` occurs), yet the trace contains zero `quit`
calls. -/
theorem medo_C6_counterexample :
    quitCount (engineRun cleanupFailWorld 0 1).2 = 0
    ∧ BEvent.newChrome ∈ (engineRun cleanupFailWorld 0 1).2
    ∧ BEvent.delCookies ∈ (engineRun cleanupFailWorld 0 1).2 :=
  ⟨by decide, by decide, by decide⟩

/-- Claim C6 (amended): on every exit path of `run` the cleanup block
executes and never propagates an exception (the returned result is
independent of cleanup failures); `driver.quit()` is called at most once,
and exactly once — preceded in order by the cookie, localStorage and
sessionStorage clears — whenever the three storage-clearing calls
succeed; when a clearing call raises, the failure is swallowed but the
quit is skipped (the session is left to the process-exit registry
cleanup). -/
theorem medo_C6 (w : EngineWorld) (tid idx : Nat) :
    quitCount (engineRun w tid idx).2 ≤ 1
    ∧ (w.createOk = Except.ok () → w.cleanup.delCookiesOk = true →
        w.cleanup.clearLocalOk = true → w.cleanup.clearSessionOk = true →
        ∃ pre, ((engineRun w tid idx).2 =
            pre ++ BEvent.delCookies :: BEvent.clearLocal ::
              BEvent.clearSession :: BEvent.quitDriver ::
              (if w.cleanup.quitOk then [BEvent.deregister] else []))
          ∧ quitCount (engineRun w tid idx).2 = 1)
    ∧ (∀ c : CleanupOps,
        (engineRun { w with cleanup := c } tid idx).1
          = (engineRun w tid idx).1) := by
  have hb := engineBody_quitCount w (generate_password w.pick) tid idx
  unfold quitCount at hb
  refine ⟨?_, ?_, ?_⟩
  · show quitCount (BEvent.genPassword (generate_password w.pick) ::
      (engineBody w (generate_password w.pick) tid idx).2
        ++ cleanupEvents (driverPresent w.createOk) w.cleanup) ≤ 1
    have hc := cleanupEvents_quitCount (driverPresent w.createOk) w.cleanup
    unfold quitCount at hc ⊢
    simp only [List.countP_cons, List.countP_append, hb]
    simpa [isQuit] using hc
  · intro hco h1 h2 h3
    have hdp : driverPresent w.createOk = true := by rw [hco]; rfl
    refine ⟨BEvent.genPassword (generate_password w.pick) ::
      (engineBody w (generate_password w.pick) tid idx).2, ?_, ?_⟩
    · show BEvent.genPassword (generate_password w.pick) ::
        (engineBody w (generate_password w.pick) tid idx).2
          ++ cleanupEvents (driverPresent w.createOk) w.cleanup = _
      rw [hdp, cleanupEvents_full w.cleanup h1 h2 h3]
    · show quitCount (BEvent.genPassword (generate_password w.pick) ::
        (engineBody w (generate_password w.pick) tid idx).2
          ++ cleanupEvents (driverPresent w.createOk) w.cleanup) = 1
      have hcl := cleanupEvents_quitCount_full w.cleanup h1 h2 h3
      unfold quitCount at hcl ⊢
      rw [hdp]
      simp only [List.countP_cons, List.countP_append, hb, hcl]
      simp [isQuit]
  · intro c
    rcases w with ⟨pick, co, m, d, r, v, cp, l, cl⟩
    rfl

theorem medo_C6_witness : quitCount (engineRun okWorld 0 1).2 = 1 := by
  obtain ⟨pre, hpre, hq⟩ := (medo_C6 okWorld 0 1).2.1 rfl rfl rfl rfl
  exact hq

/-- Claim C8 (counterexample): the claim asserts the session is added to
the live-session registry immediately upon creation, before any other
operation on it.  In `create_driver` the `stealth(...)` adjustments are
applied to the session before `_active_drivers.append(...)` runs: in the
trace the event right after session creation (`newChrome`, index 2) is
`stealth` (index 3), and registration only follows at index 4. -/
theorem medo_C8_counterexample :
    (engineRun okWorld 0 1).2.take 5 =
      [BEvent.genPassword (generate_password okWorld.pick),
       BEvent.buildOptions, BEvent.newChrome, BEvent.stealth,
       BEvent.registerDriver]
    ∧ BEvent.stealth ≠ BEvent.registerDriver :=
  ⟨by decide, by decide⟩

/-- Claim C8 (amended): whenever the browser session is created
successfully, it is registered in the process-wide live-session registry
during `create_driver` — before `create_driver` returns and hence before
any workflow operation on the session — but only after the stealth
fingerprint adjustments have been applied to it: the trace always starts
with password generation, options building, session creation, stealth,
registration, in that order. -/
theorem medo_C8 (w : EngineWorld) (tid idx : Nat)
    (h : w.createOk = Except.ok ()) :
    ∃ rest, (engineRun w tid idx).2 =
      BEvent.genPassword (generate_password w.pick) :: BEvent.buildOptions ::
        BEvent.newChrome :: BEvent.stealth :: BEvent.registerDriver :: rest := by
  refine ⟨(afterDriverFlow w (generate_password w.pick) tid idx).2
    ++ cleanupEvents (driverPresent w.createOk) w.cleanup, ?_⟩
  show BEvent.genPassword (generate_password w.pick) ::
      (engineBody w (generate_password w.pick) tid idx).2
        ++ cleanupEvents (driverPresent w.createOk) w.cleanup = _
  unfold engineBody
  rw [h]
  simp

theorem medo_C8_witness :
    (engineRun okWorld 0 1).2.take 5 =
      [BEvent.genPassword (generate_password okWorld.pick),
       BEvent.buildOptions, BEvent.newChrome, BEvent.stealth,
       BEvent.registerDriver] := by
  obtain ⟨rest, hr⟩ := medo_C8 okWorld 0 1 rfl
  rw [hr]
  rfl

theorem medo_C5_witness :
    run_single_account true okWorld 3 5 = (shutdownResult 3, [])
    ∧ RetryEvent.invoke 0 ∉ (runWithRetry engF (fun _ => true) 3 2).2 :=
  ⟨(medo_C5 okWorld 3 5 2 engF).1,
   (medo_C5 okWorld 3 5 2 engF).2.2.2.2 (RetryEvent.invoke 0)⟩

/-! ### Credential store (medo.py lines 916-925 and 1135-1154)

`AccountManager.save_account` appends one `email:password` line inside a
`try`, returning `True`, and catches every exception, logging and
returning `False`.  The orchestrator's `update_progress` callback
appends the result to the in-memory list, bumps the completion counter
and, for successful results whose `email` and `password` are truthy,
calls `save_account` (ignoring its return value).  `ioOk` is the oracle
for whether the underlying open/write raises. -/

/-- The line format written per saved account: `f"{email}:{password}
"`
(modelled without the trailing newline, one list entry per line). -/
def saveLine (email password : String) : String := email ++ ":" ++ password

/-- `AccountManager.save_account`: on I/O success appends the line and
returns `True`; on any exception leaves the store unchanged and returns
`False` (never raises). -/
def save_account (ioOk : Bool) (store : List String) (email password : String) :
    List String × Bool :=
  if ioOk then (store ++ [saveLine email password], true) else (store, false)

/-- The store effect of one `update_progress(result)` call: persist only
successful results with truthy email and password. -/
def update_progress (ioOk : Bool) (store : List String) (r : AccountResult) :
    List String :=
  if r.success then
    match r.email, r.password with
    | some e, some p =>
      if e != "" && p != "" then (save_account ioOk store e p).1 else store
    | _, _ => store
  else store

/-- The lines contributed by one result when the write succeeds. -/
def lineOf (r : AccountResult) : List String :=
  if r.success then
    match r.email, r.password with
    | some e, some p => if e != "" && p != "" then [saveLine e p] else []
    | _, _ => []
  else []

/-- The accounts store after a run in which every write succeeded:
`update_progress` applied over the collected results in completion
order. -/
def runStore (results : List AccountResult) : List String :=
  results.foldl (update_progress true) []

/-- The orchestrator's result loop with a per-call I/O oracle: each
completed result bumps the completion counter whether or not its store
write succeeds. -/
def orchestratorLoop (io : Nat → Bool) (results : List AccountResult) :
    List String × Nat :=
  results.foldl
    (fun acc r => (update_progress (io acc.2) acc.1 r, acc.2 + 1)) ([], 0)

theorem update_progress_true (store : List String) (r : AccountResult) :
    update_progress true store r = store ++ lineOf r := by
  unfold update_progress lineOf save_account
  rcases r with ⟨s, e, p, err, t, i, d⟩
  cases s
  · simp
  · rcases e with _ | e <;> rcases p with _ | p <;> simp
    split <;> simp

theorem foldl_update (l : List AccountResult) :
    ∀ init, l.foldl (update_progress true) init = init ++ l.flatMap lineOf := by
  induction l with
  | nil => intro init; simp
  | cons r t ih =>
    intro init
    rw [List.foldl_cons, update_progress_true, ih, List.flatMap_cons,
      List.append_assoc]

theorem wellformed_success (r : AccountResult) (hs : r.success = true)
    (hw : resultWellformed r = true) :
    ∃ e p, r.email = some e ∧ r.password = some p ∧ e ≠ "" ∧ p ≠ "" := by
  unfold resultWellformed at hw
  rw [hs] at hw
  rcases he : r.email with _ | e <;> rcases hp : r.password with _ | p <;>
    rw [he, hp] at hw <;> simp at hw
  exact ⟨e, p, rfl, rfl, hw.1, hw.2⟩

theorem bind_lineOf (l : List AccountResult)
    (h : ∀ r ∈ l, r.success = true → resultWellformed r = true) :
    l.flatMap lineOf = (l.filter fun r => r.success).map
      (fun r => saveLine (r.email.getD "") (r.password.getD "")) := by
  induction l with
  | nil => rfl
  | cons r t ih =>
    have ht : ∀ x ∈ t, x.success = true → resultWellformed x = true :=
      fun x hx => h x (List.mem_cons_of_mem r hx)
    rw [List.flatMap_cons, ih ht]
    cases hs : r.success
    · simp [lineOf, hs]
    · obtain ⟨e, p, he, hp, hne, hnp⟩ :=
        wellformed_success r hs (h r (List.mem_cons_self r t) hs)
      have hb : (e != "" && p != "") = true := by simp [hne, hnp]
      simp [lineOf, hs, he, hp, hb, saveLine]

/-- Claim C2: after a run the persisted store holds exactly one appended
`email:password` line per successful result (in completion order, using
that result's email and password), and no line for a failed result.  The
hypothesis — every successful result carries non-empty email and
password — is the invariant established for all system-produced results
by claim C4. -/
theorem medo_C2 (results : List AccountResult)
    (h : ∀ r ∈ results, r.success = true → resultWellformed r = true) :
    runStore results = (results.filter fun r => r.success).map
      (fun r => saveLine (r.email.getD "") (r.password.getD ""))
    ∧ (runStore results).length = (results.filter fun r => r.success).length
    ∧ (∀ (b : Bool) (store : List String) (r : AccountResult),
        r.success = false → update_progress b store r = store) := by
  have hrs : runStore results = results.flatMap lineOf := by
    unfold runStore
    rw [foldl_update]
    rfl
  refine ⟨?_, ?_, ?_⟩
  · rw [hrs, bind_lineOf results h]
  · rw [hrs, bind_lineOf results h, List.length_map]
  · intro b store r hr
    simp [update_progress, hr]

/-- Two sample results: one success, one failure. -/
def sampleResults : List AccountResult :=
  [{ success := true, email := some "a@b.c", password := some "pw" },
   { success := false, error := some "err" }]

theorem medo_C2_witness :
    runStore sampleResults = (sampleResults.filter fun r => r.success).map
      (fun r => saveLine (r.email.getD "") (r.password.getD "")) :=
  (medo_C2 sampleResults (by decide)).1

/-- Claim C9: a store write failure never raises out of `save_account`
and never aborts the run: the result loop's completion count equals the
number of results for every I/O oracle, `save_account` always returns a
`(store, flag)` pair (append-and-`True` or unchanged-and-`False`), and on
an I/O error it returns `False` with the store unchanged. -/
theorem medo_C9 (io : Nat → Bool) (results : List AccountResult) :
    (orchestratorLoop io results).2 = results.length
    ∧ (∀ (ok : Bool) (store : List String) (e p : String),
        save_account ok store e p = (store ++ [saveLine e p], true)
          ∨ save_account ok store e p = (store, false))
    ∧ (∀ (store : List String) (e p : String),
        save_account false store e p = (store, false)) := by
  refine ⟨?_, ?_, fun store e p => rfl⟩
  · have hgen : ∀ (l : List AccountResult) (acc : List String × Nat),
        (l.foldl (fun acc r => (update_progress (io acc.2) acc.1 r, acc.2 + 1))
          acc).2 = acc.2 + l.length := by
      intro l
      induction l with
      | nil => intro acc; simp
      | cons r t ih =>
        intro acc
        rw [List.foldl_cons, ih, List.length_cons]
        omega
    simpa [orchestratorLoop] using hgen results ([], 0)
  · intro ok store e p
    cases ok
    · exact Or.inr rfl
    · exact Or.inl rfl

theorem medo_C9_witness :
    (orchestratorLoop (fun _ => false) sampleResults).2 = sampleResults.length
    ∧ save_account false ["x:y"] "a@b.c" "pw" = (["x:y"], false) :=
  ⟨(medo_C9 (fun _ => false) sampleResults).1,
   (medo_C9 (fun _ => false) sampleResults).2.2 ["x:y"] "a@b.c" "pw"⟩

end Medo
